import Mathlib

/-!
Verification of `etl_connector.py` (AlienVault OTX → MongoDB ETL connector).

The connector is shallowly embedded: Python dictionaries / JSON values become
the inductive type `Json`; Python truthiness becomes `truthy`; the MongoDB
collection becomes a `List Json` of stored documents; `time.sleep` calls in
`safe_get` become an explicit trace of sleep durations; the wall clock
(`datetime.utcnow()`) becomes an `Int` parameter; log calls that matter to the
spec become explicit counters/flags in the result types.  Python exceptions
that escape a function are modelled with an explicit crash constructor or
`Option`.
-/

set_option autoImplicit false

namespace Etl

/-- JSON-like values: the shape of `resp.json()` payloads, of raw records and
of documents stored in MongoDB.  Python `None` is `Json.null`. -/
inductive Json where
  | null
  | bool (b : Bool)
  | num (n : Int)
  | str (s : String)
  | arr (xs : List Json)
  | obj (fields : List (String × Json))
deriving Repr

mutual

/-- Structural equality of JSON values (models Python `==` on parsed JSON and
MongoDB equality matching on scalar fields). -/
def Json.beq : Json → Json → Bool
  | .null, .null => true
  | .bool a, .bool b => a == b
  | .num a, .num b => a == b
  | .str a, .str b => a == b
  | .arr xs, .arr ys => Json.beqList xs ys
  | .obj fs, .obj gs => Json.beqFields fs gs
  | _, _ => false

/-- Elementwise equality of JSON arrays. -/
def Json.beqList : List Json → List Json → Bool
  | [], [] => true
  | x :: xs, y :: ys => Json.beq x y && Json.beqList xs ys
  | _, _ => false

/-- Elementwise equality of JSON object field lists. -/
def Json.beqFields : List (String × Json) → List (String × Json) → Bool
  | [], [] => true
  | (k, v) :: fs, (k', v') :: gs => k == k' && Json.beq v v' && Json.beqFields fs gs
  | _, _ => false

end

/-- Python truthiness (`bool(x)`): `None`, `False`, `0`, `""`, `[]`, `{}` are
falsy, everything else is truthy. -/
def truthy : Json → Bool
  | .null => false
  | .bool b => b
  | .num n => n != 0
  | .str s => s != ""
  | .arr xs => !xs.isEmpty
  | .obj fs => !fs.isEmpty

/-- Python `a or b`: returns `a` when truthy, otherwise `b`. -/
def pyOr (a b : Json) : Json :=
  if truthy a then a else b

/-- First binding of `key` in an association list (Python dicts have unique
keys; lookup takes the first match). -/
def lookupField : List (String × Json) → String → Option Json
  | [], _ => none
  | (k, v) :: rest, key => if k = key then some v else lookupField rest key

/-- Python `d.get(key)` on a mapping: the stored value, or `None` when the key
is absent.  (Calling `.get` on a non-mapping raises in Python; the embeddings
below model that crash explicitly at each call site where it can happen.) -/
def Json.getD (j : Json) (key : String) : Json :=
  match j with
  | .obj fs => (lookupField fs key).getD .null
  | _ => .null

/-- Whether a JSON value is a mapping (Python `isinstance(x, dict)`). -/
def Json.isObj : Json → Bool
  | .obj _ => true
  | _ => false

/-- Python `x is None` on a JSON value. -/
def Json.isNull : Json → Bool
  | .null => true
  | _ => false

/-- Python `key in d` on a mapping. -/
def Json.hasKey (j : Json) (key : String) : Bool :=
  match j with
  | .obj fs => (lookupField fs key).isSome
  | _ => false

/-- Replace the first binding of `k` (Python dict assignment updates the key
in place), or append the binding when `k` is absent (Python dict assignment
appends a new key at the end). -/
def setField : List (String × Json) → String → Json → List (String × Json)
  | [], k, v => [(k, v)]
  | (k', v') :: rest, k, v =>
      if k' = k then (k, v) :: rest else (k', v') :: setField rest k v

/-- Python `d[k] = v` on a mapping (identity on non-mappings; only applied to
mappings below). -/
def Json.set (j : Json) (k : String) (v : Json) : Json :=
  match j with
  | .obj fs => .obj (setField fs k v)
  | j => j

/-! ### `safe_get` (etl_connector.py lines 53-85)

Each loop iteration performs one `session.get`; its observable behaviour is an
`Attempt`: either a transport exception (`requests.RequestException`) or a
response with a status code and an optional `Retry-After` header.  `safe_get`
is modelled on the list of attempt behaviours, one entry per loop iteration
(so a list of length `max_retries` models a full run of the loop); running off
the end of the list is the loop completing and raising
`RuntimeError("Max retries exceeded ...")`.  The returned trace of `Nat`s
records every `time.sleep` duration, in order (backoff starts at 1.0 and
doubles; all values reached are integers, so `Nat` is exact). -/

/-- One `session.get` outcome inside the retry loop of `safe_get`. -/
inductive Attempt where
  | exn
  | resp (status : Nat) (retryAfter : Option String)

/-- How a call to `safe_get` ends: a 200 response returned to the caller, an
`HTTPError` raised by `resp.raise_for_status()` carrying the status, or the
final `RuntimeError` after the loop exhausts `max_retries` attempts. -/
inductive GetOutcome where
  | success
  | raised (status : Nat)
  | exhausted
deriving DecidableEq, Repr

/-- ASCII decimal digit (`Retry-After` header values are ASCII; on them
Python `str.isnumeric` holds exactly when every character is one of 0-9). -/
def isDigitChar (c : Char) : Bool := 48 ≤ c.toNat && c.toNat ≤ 57

/-- Decimal value of a digit string (what `float(...)` yields on a string of
digits; the value is a natural number, exactly representable). -/
def digitsToNat : List Char → Nat → Nat
  | [], acc => acc
  | c :: cs, acc => digitsToNat cs (acc * 10 + (c.toNat - 48))

/-- `float(retry_after) if retry_after and retry_after.isnumeric() else backoff`:
the header parses only when present, non-empty and all digits, in which case
its value is a natural number. -/
def parseRetryAfter : Option String → Option Nat
  | none => none
  | some s =>
      if s ≠ "" ∧ s.toList.all isDigitChar
      then some (digitsToNat s.toList 0) else none

/-- The retry loop of `safe_get`, carrying the current `backoff`.  Returns the
outcome and the trace of sleep durations. -/
def safe_get_go (backoff : Nat) : List Attempt → GetOutcome × List Nat
  | [] => (.exhausted, [])
  | .exn :: rest =>
      let r := safe_get_go (2 * backoff) rest
      (r.1, backoff :: r.2)
  | .resp st ra :: rest =>
      if st = 200 then (.success, [])
      else if st = 429 then
        let sleepFor := (parseRetryAfter ra).getD backoff
        let r := safe_get_go (2 * backoff) rest
        (r.1, sleepFor :: r.2)
      else if 500 ≤ st ∧ st < 600 then
        let r := safe_get_go (2 * backoff) rest
        (r.1, backoff :: r.2)
      else if 400 ≤ st ∧ st < 600 then
        -- resp.raise_for_status() raises HTTPError for 4xx (5xx was handled above)
        (.raised st, [])
      else
        -- raise_for_status is a no-op outside 400..599; the loop proceeds
        -- to the next attempt without sleeping and without doubling backoff
        safe_get_go backoff rest

/-- `safe_get`: the loop starts with `backoff = 1.0`. -/
def safe_get (attempts : List Attempt) : GetOutcome × List Nat :=
  safe_get_go 1 attempts

/-! ### `fetch_subscribed_pulses` (etl_connector.py lines 88-127)

The generator is modelled on a page-indexed family of response bodies
`pages : Nat → Json` (the body `resp.json()` of the successful `safe_get` for
that page number).  `fuel` is the number of page iterations the
`while page <= max_pages` loop still allows, so the generator is
`fetchGo per_page pages 1 max_pages`.  The result is the list of yielded raw
records, the number of page requests issued, and whether the generator raised
(an `AttributeError` from calling `.get` on a non-mapping response body). -/

/-- Resolving the item list from one response body (lines 100-117):
`items = data.get("results") or data.get("pulses") or data`, then `break` on
falsy items, then first list-valued entry when `items` is a mapping, then
`break` when `items` is still not a list. -/
inductive PageResult where
  | crash
  | stop
  | items (xs : List Json)

/-- First list-typed value in a mapping (`for v in items.values(): if
isinstance(v, list)`), as the `Json.arr` itself. -/
def firstList : List (String × Json) → Option Json
  | [] => none
  | (_, Json.arr xs) :: _ => some (Json.arr xs)
  | _ :: rest => firstList rest

/-- Item extraction for one fetched page body. -/
def pageItems (data : Json) : PageResult :=
  match data with
  | Json.obj _ =>
      let its := pyOr (data.getD "results") (pyOr (data.getD "pulses") data)
      if ¬ truthy its then .stop
      else
        let its := match its with
          | Json.obj fs => (firstList fs).getD (Json.obj fs)
          | j => j
        match its with
        | .arr xs => .items xs
        | _ => .stop
  | _ => .crash

/-- The pagination loop: yielded records, pages requested, crashed flag. -/
def fetchGo (per_page : Nat) (pages : Nat → Json) (page : Nat) :
    Nat → List Json × Nat × Bool
  | 0 => ([], 0, false)
  | fuel + 1 =>
      match pageItems (pages page) with
      | .crash => ([], 1, true)
      | .stop => ([], 1, false)
      | .items xs =>
          if xs.length < per_page then (xs, 1, false)
          else
            let r := fetchGo per_page pages (page + 1) fuel
            (xs ++ r.1, r.2.1 + 1, r.2.2)

/-- `fetch_subscribed_pulses(per_page, max_pages)` run to completion. -/
def fetch_subscribed_pulses (per_page max_pages : Nat) (pages : Nat → Json) :
    List Json × Nat × Bool :=
  fetchGo per_page pages 1 max_pages

/-! ### `transform_pulse` (etl_connector.py lines 130-164)

`datetime.utcnow()` is an `Int` parameter `now`.  The module-level
configuration constants keep their `.env` defaults (their values never matter
to the properties below).  The result is `none` when the Python function
raises: `raw.get("id")` on a non-mapping `raw`, or `pulse_info.get(...)` on a
truthy non-mapping `pulse_info` — both `AttributeError`s that no caller
catches. -/

/-- Default of `CONNECTOR_NAME` in the source. -/
def CONNECTOR_NAME : String := "otx_pulses_connector"

/-- Default of `BASE_URL` in the source. -/
def BASE_URL : String := "https://otx.alienvault.com/api/v1"

/-- Default of `CITY` in the source (empty, so `CITY or None` is `None`). -/
def CITY : String := ""

/-- `transform_pulse(raw)`. -/
def transform_pulse (now : Int) (raw : Json) : Option Json :=
  let transformed : Json := .obj
    [ ("ingestion_timestamp", .num now),
      ("connector_name", .str CONNECTOR_NAME),
      ("source", .str "otx"),
      ("source_base_url", .str BASE_URL),
      ("source_city", if CITY = "" then .null else .str CITY),
      ("raw", raw) ]
  match raw with
  | .obj _ =>
      let pulse_info := raw.getD "pulse_info"
      let afterInfo : Option Json :=
        if truthy pulse_info then
          match pulse_info with
          | .obj _ => some
              ((((transformed.set "pulse_name" (pulse_info.getD "name")).set
                  "pulse_id" (pulse_info.getD "id")).set
                  "pulse_created" (pulse_info.getD "created")).set
                  "pulse_modified" (pulse_info.getD "modified"))
          | _ => none  -- pulse_info.get(...) raises AttributeError
        else some transformed
      match afterInfo with
      | none => none
      | some t1 =>
          let t2 :=
            if truthy (raw.getD "id") then
              t1.set "pulse_id" (pyOr (t1.getD "pulse_id") (raw.getD "id"))
            else t1
          let t3 :=
            if !(raw.getD "indicator_count").isNull then
              t2.set "indicator_count" (raw.getD "indicator_count")
            else t2
          some t3
  | _ => none  -- raw.get("id") raises AttributeError

/-! ### `validate_document` (etl_connector.py lines 194-203) -/

/-- `validate_document(doc)`: membership tests, not truthiness. -/
def validate_document (doc : Json) : Bool :=
  doc.hasKey "ingestion_timestamp" && doc.hasKey "raw"

/-! ### `upsert_to_mongo` (etl_connector.py lines 167-191)

The collection is a `List Json` of stored documents in insertion order.
`collection.replace_one({"pulse_id": pid}, doc, upsert=True)` replaces the
first stored document whose `pulse_id` field equals `pid` (the filter value is
always truthy here, hence never `null`, so equality on the field models
Mongo's match), or appends `doc` when none matches.  `collection.insert_one`
appends.  Each per-document write may raise `PyMongoError`; the injected
`Bool` paired with each document says whether its write raises, and the `Nat`
in the results counts the `logger.error` / `logger.warning` events emitted by
the `except` branches. -/

/-- `replace_one` with `upsert=True`, keyed on the `pulse_id` field. -/
def replace_one (store : List Json) (pid : Json) (doc : Json) : List Json :=
  match store with
  | [] => [doc]
  | d :: rest =>
      if Json.beq (d.getD "pulse_id") pid then doc :: rest
      else d :: replace_one rest pid doc

/-- One iteration of the loop body of `upsert_to_mongo` for `doc` (with
`upsert_on = "pulse_id"`): new store and number of logged write errors. -/
def upsertOne (store : List Json) (doc : Json) (fail : Bool) : List Json × Nat :=
  let pid := doc.getD "pulse_id"
  if truthy pid then
    if fail then (store, 1) else (replace_one store pid doc, 0)
  else
    if fail then (store, 1) else (store ++ [doc], 0)

/-- The whole document loop of `upsert_to_mongo`. -/
def upsertBatch : List (Json × Bool) → List Json → List Json × Nat
  | [], store => (store, 0)
  | (d, f) :: rest, store =>
      let r1 := upsertOne store d f
      let r2 := upsertBatch rest r1.1
      (r2.1, r1.2 + r2.2)

/-- The outcome-count record the spec's loader contract describes.  The Python
function never builds one: both its `return` statements return `None`. -/
structure OutcomeCounts where
  upserted : Nat
  modified : Nat
  failed : Nat
deriving DecidableEq, Repr

/-- `upsert_to_mongo(documents)`: final store, logged write errors, and the
Python return value (`None` on the empty-batch early return at line 173 and
`None` falling off the end at line 191, modelled as `Option OutcomeCounts` to
compare against the spec's contract). -/
def upsert_to_mongo (docs : List (Json × Bool)) (store : List Json) :
    List Json × Nat × Option OutcomeCounts :=
  if docs.isEmpty then (store, 0, none)
  else
    let r := upsertBatch docs store
    (r.1, r.2, none)

/-! ### `main` (etl_connector.py lines 206-242)

`client.admin.command("ping")` either succeeds (`pingOk = true`) or raises
(`pingOk = false`; `main` logs the exception and returns `None`, so the
process exits with status 0).  The fetch generator is driven lazily by the
`for` loop, but its yielded records, the store effects and the processed count
are the same as fetching eagerly; the one lazy/eager difference — a generator
crash aborts before the final batch flush — is preserved by threading the
fetch's crashed flag into the loop.  `mainLoop` also accumulates the list of
every document handed to `upsert_to_mongo`, to state which documents reach the
loader. -/

/-- What a run of `main` observably does. -/
structure RunOutcome where
  /-- Process exit status: 0 on a normal return of `main`, 1 when an uncaught
  exception escapes it. -/
  exitCode : Nat
  /-- Number of HTTP page requests issued by the fetch generator. -/
  pagesRequested : Nat
  /-- The final `count` (`"Total processed: %d"`). -/
  processed : Nat
  /-- Whether the `logger.exception("Could not connect to MongoDB ...")`
  diagnostic was emitted. -/
  pingErrorLogged : Bool
  /-- Final collection contents. -/
  store : List Json
deriving Repr

/-- The record loop of `main`: remaining raw records, current
`docs_to_insert` batch, `count`, documents handed to the loader so far, and
the store.  Returns the final store, `count`, all loader inputs, and whether
the run crashed (transform raised, or the fetch generator itself raised when
the loop reached its end). -/
def mainLoop (batchSize : Nat) (now : Int) (fetchCrashed : Bool) :
    List Json → List Json → Nat → List Json → List Json →
    List Json × Nat × List Json × Bool
  | [], batch, count, loaded, store =>
      if fetchCrashed then (store, count, loaded, true)
      else if batch.isEmpty then (store, count, loaded, false)
      else
        ((upsert_to_mongo (batch.map (fun d => (d, false))) store).1,
          count, loaded ++ batch, false)
  | r :: rs, batch, count, loaded, store =>
      match transform_pulse now r with
      | none => (store, count, loaded, true)
      | some d =>
          if validate_document d then
            let batch' := batch ++ [d]
            if batchSize ≤ batch'.length then
              mainLoop batchSize now fetchCrashed rs [] (count + 1)
                (loaded ++ batch')
                (upsert_to_mongo (batch'.map (fun d => (d, false))) store).1
            else
              mainLoop batchSize now fetchCrashed rs batch' (count + 1) loaded store
          else
            -- "Validation failed for item; skipping"
            mainLoop batchSize now fetchCrashed rs batch count loaded store

/-- `main(batch_size)`: the source fixes `per_page = 50` and the defaults
`max_pages = 100`, `batch_size = 20`; they are parameters here. -/
def mainRun (pingOk : Bool) (now : Int) (pages : Nat → Json)
    (batchSize maxPages perPage : Nat) (store : List Json) : RunOutcome :=
  if pingOk then
    let f := fetch_subscribed_pulses perPage maxPages pages
    let m := mainLoop batchSize now f.2.2 f.1 [] 0 [] store
    { exitCode := if m.2.2.2 then 1 else 0, pagesRequested := f.2.1,
      processed := m.2.1, pingErrorLogged := false, store := m.1 }
  else
    { exitCode := 0, pagesRequested := 0, processed := 0,
      pingErrorLogged := true, store := store }

/-! ### Measurements used by the properties -/

/-- Number of stored documents whose `pulse_id` field equals `pid`. -/
def countWithId (store : List Json) (pid : Json) : Nat :=
  (store.filter (fun d => Json.beq (d.getD "pulse_id") pid)).length

/-- The document `transform_pulse 0 {}` produces (used to instantiate
universally quantified results on a concrete run). -/
def sampleTransformed : Json := .obj
  [ ("ingestion_timestamp", .num 0),
    ("connector_name", .str CONNECTOR_NAME),
    ("source", .str "otx"),
    ("source_base_url", .str BASE_URL),
    ("source_city", .null),
    ("raw", .obj []) ]

/-- A concrete paginated API: page 1 holds two records, every later page one
record (used to instantiate the pagination property on a concrete run). -/
def wPages : Nat → Json := fun p =>
  if p = 1 then Json.obj [("results", Json.arr [Json.num 1, Json.num 2])]
  else Json.obj [("results", Json.arr [Json.num 3])]

/-- A concrete raw record whose `pulse_info.id` (5) and top-level `id` (9)
disagree (used to instantiate the identifier-extraction property). -/
def rawWFields : List (String × Json) :=
  [("pulse_info", Json.obj [("id", Json.num 5)]), ("id", Json.num 9)]

/-- The document `transform_pulse 0 (Json.obj rawWFields)` produces. -/
def docW10 : Json := .obj
  [ ("ingestion_timestamp", .num 0),
    ("connector_name", .str CONNECTOR_NAME),
    ("source", .str "otx"),
    ("source_base_url", .str BASE_URL),
    ("source_city", .null),
    ("raw", .obj rawWFields),
    ("pulse_name", .null),
    ("pulse_id", .num 5),
    ("pulse_created", .null),
    ("pulse_modified", .null) ]

/-! ## Helper lemmas -/

mutual

/-- `Json.beq` is reflexive. -/
theorem Json.beq_refl : ∀ (j : Json), Json.beq j j = true
  | .null => rfl
  | .bool b => by simp [Json.beq]
  | .num n => by simp [Json.beq]
  | .str s => by simp [Json.beq]
  | .arr xs => by simp [Json.beq, Json.beqList_refl xs]
  | .obj fs => by simp [Json.beq, Json.beqFields_refl fs]

/-- `Json.beqList` is reflexive. -/
theorem Json.beqList_refl : ∀ (xs : List Json), Json.beqList xs xs = true
  | [] => rfl
  | x :: xs => by simp [Json.beqList, Json.beq_refl x, Json.beqList_refl xs]

/-- `Json.beqFields` is reflexive. -/
theorem Json.beqFields_refl : ∀ (fs : List (String × Json)),
    Json.beqFields fs fs = true
  | [] => rfl
  | (k, v) :: fs => by
      simp [Json.beqFields, Json.beq_refl v, Json.beqFields_refl fs]

end

/-- Looking a key up after `setField`. -/
theorem lookupField_setField (fs : List (String × Json)) (k k' : String) (v : Json) :
    lookupField (setField fs k v) k'
      = if k' = k then some v else lookupField fs k' := by
  induction fs with
  | nil =>
      by_cases h : k' = k <;> simp [setField, lookupField, h]
      exact fun e => h e.symm
  | cons p rest ih =>
      obtain ⟨k₀, v₀⟩ := p
      by_cases h0 : k₀ = k
      · subst h0
        simp only [setField, if_pos rfl]
        by_cases h : k' = k₀
        · subst h; simp [lookupField]
        · have h' : ¬ k₀ = k' := fun e => h e.symm
          simp [lookupField, h, h']
      · simp only [setField, if_neg h0]
        by_cases h : k' = k₀
        · subst h
          simp [lookupField, h0]
        · have h' : ¬ k₀ = k' := fun e => h e.symm
          simp [lookupField, h, h', ih]

/-- `Json.set` keeps mappings mappings. -/
theorem isObj_set (j : Json) (k : String) (v : Json) :
    (j.set k v).isObj = j.isObj := by
  cases j <;> simp [Json.set, Json.isObj]

/-- `getD` after `set` on a mapping. -/
theorem getD_set (j : Json) (k k' : String) (v : Json) (hj : j.isObj = true) :
    (j.set k v).getD k' = if k' = k then v else j.getD k' := by
  cases j <;> simp [Json.isObj] at hj
  simp [Json.set, Json.getD, lookupField_setField]
  by_cases h : k' = k <;> simp [h]

/-- `hasKey` after `set` on a mapping. -/
theorem hasKey_set (j : Json) (k k' : String) (v : Json) (hj : j.isObj = true) :
    (j.set k v).hasKey k' = if k' = k then true else j.hasKey k' := by
  cases j <;> simp [Json.isObj] at hj
  simp [Json.hasKey, Json.set, lookupField_setField]
  by_cases h : k' = k <;> simp [h]

/-- Mapping literals are mappings. -/
theorem isObj_obj (fs : List (String × Json)) : (Json.obj fs).isObj = true := rfl

/-- A falsy JSON value has no fields to look up: `getD` on it is `null`
(non-mappings yield `null` by definition, and a falsy mapping is empty). -/
theorem getD_of_falsy (j : Json) (k : String) (h : truthy j = false) :
    j.getD k = Json.null := by
  cases j with
  | obj fs =>
      simp [truthy] at h
      simp [Json.getD, h, lookupField]
  | null => rfl
  | bool b => rfl
  | num n => rfl
  | str s => rfl
  | arr xs => rfl

/-- Whenever `transform_pulse` returns a document, that document holds the
unmodified raw record under `"raw"`, the wall-clock stamp under
`"ingestion_timestamp"`, and passes `validate_document`. -/
theorem transform_pulse_props (now : Int) (raw d : Json)
    (h : transform_pulse now raw = some d) :
    d.getD "raw" = raw ∧ d.getD "ingestion_timestamp" = Json.num now
      ∧ validate_document d = true := by
  cases raw with
  | obj fs =>
      simp only [transform_pulse] at h
      split at h
      · exact absurd h (by simp)
      · rename_i t1 heq
        injection h with h'
        subst h'
        have hprops : t1.isObj = true ∧ t1.getD "raw" = Json.obj fs
            ∧ t1.getD "ingestion_timestamp" = Json.num now
            ∧ t1.hasKey "raw" = true
            ∧ t1.hasKey "ingestion_timestamp" = true := by
          by_cases hpi : truthy ((Json.obj fs).getD "pulse_info") = true
          · simp only [hpi, if_true] at heq
            split at heq
            · injection heq with h1
              subst h1
              refine ⟨?_, ?_, ?_, ?_, ?_⟩ <;>
                simp [getD_set, hasKey_set, isObj_set, isObj_obj] <;>
                simp [Json.getD, Json.hasKey, lookupField]
            · exact absurd heq (by simp)
          · simp only [hpi, if_false] at heq
            injection heq with h1
            subst h1
            refine ⟨?_, ?_, ?_, ?_, ?_⟩ <;>
              simp [Json.isObj, Json.getD, Json.hasKey, lookupField]
        obtain ⟨ho, hr, hi, hkr, hki⟩ := hprops
        by_cases h1 : truthy ((Json.obj fs).getD "id") = true <;>
          by_cases h2 : ((Json.obj fs).getD "indicator_count").isNull = true <;>
            simp [h1, h2, getD_set, hasKey_set, isObj_set, ho, hr, hi, hkr,
              hki, validate_document]
  | null => simp [transform_pulse] at h
  | bool b => simp [transform_pulse] at h
  | num n => simp [transform_pulse] at h
  | str s => simp [transform_pulse] at h
  | arr xs => simp [transform_pulse] at h

/-- Invariant of the record loop of `main`: when every document in the
pending batch and in the loader-input trace is validated, every document the
loop ever hands to the loader is validated (new documents enter a batch only
through the `validate_document` guard). -/
theorem mainLoop_loaded_validated (batchSize : Nat) (now : Int) (fc : Bool)
    (rs : List Json) :
    ∀ (batch : List Json) (count : Nat) (loaded store : List Json),
      (∀ b ∈ batch, validate_document b = true) →
      (∀ b ∈ loaded, validate_document b = true) →
      ∀ d ∈ (mainLoop batchSize now fc rs batch count loaded store).2.2.1,
        validate_document d = true := by
  induction rs with
  | nil =>
      intro batch count loaded store hb hl d hd
      simp only [mainLoop] at hd
      split at hd
      · exact hl d hd
      · split at hd
        · exact hl d hd
        · rcases List.mem_append.mp hd with h | h
          · exact hl d h
          · exact hb d h
  | cons r rs ih =>
      intro batch count loaded store hb hl d hd
      simp only [mainLoop] at hd
      split at hd
      · exact hl d hd
      · rename_i t ht
        split at hd
        · rename_i hv
          split at hd
          · refine ih [] (count + 1) _ _ (by simp) ?_ d hd
            intro b hbmem
            rcases List.mem_append.mp hbmem with h | h
            · exact hl b h
            · rcases List.mem_append.mp h with h' | h'
              · exact hb b h'
              · rw [List.mem_singleton.mp h']
                exact hv
          · refine ih (batch ++ [t]) (count + 1) loaded store ?_ hl d hd
            intro b hbmem
            rcases List.mem_append.mp hbmem with h | h'
            · exact hb b h
            · rw [List.mem_singleton.mp h']
              exact hv
        · exact ih batch count loaded store hb hl d hd

/-- Replacing by `pid` leaves the number of documents with id `pid` unchanged
when some stored document matches, and adds one otherwise. -/
theorem countWithId_replace_one (store : List Json) (pid doc : Json)
    (h : Json.beq (doc.getD "pulse_id") pid = true) :
    countWithId (replace_one store pid doc) pid
      = if store.any (fun d => Json.beq (d.getD "pulse_id") pid)
        then countWithId store pid else countWithId store pid + 1 := by
  induction store with
  | nil => simp [replace_one, countWithId, h]
  | cons d rest ih =>
      by_cases hd : Json.beq (d.getD "pulse_id") pid = true
      · simp [replace_one, countWithId, hd, h]
      · simp only [replace_one, Bool.not_eq_true] at hd ⊢
        simp only [hd, Bool.false_eq_true, if_false, List.any_cons, Bool.false_or]
        simp only [countWithId, List.filter_cons, hd, Bool.false_eq_true, if_false] at ih ⊢
        exact ih

/-- The upserted document itself always matches its own `pulse_id` in the
store `replace_one` produces. -/
theorem replace_one_any (store : List Json) (pid doc : Json)
    (h : Json.beq (doc.getD "pulse_id") pid = true) :
    (replace_one store pid doc).any
        (fun d => Json.beq (d.getD "pulse_id") pid) = true := by
  induction store with
  | nil => simp [replace_one, h]
  | cons d rest ih =>
      by_cases hd : Json.beq (d.getD "pulse_id") pid = true
      · simp [replace_one, hd, h]
      · simp only [replace_one, Bool.not_eq_true] at hd ⊢
        simp [hd, ih]

/-! ## Claims -/

/-- Claim C1: loading the same document (with a truthy identifier) twice
through the loader leaves the store's count of documents carrying that
identifier unchanged after the second load — the upsert replaces the stored
document matching the identifier instead of inserting a duplicate. -/
theorem claim_C1_idempotent_upsert (store : List Json) (doc : Json)
    (h : truthy (doc.getD "pulse_id") = true) :
    countWithId
        ((upsert_to_mongo [(doc, false)]
          ((upsert_to_mongo [(doc, false)] store).1)).1)
        (doc.getD "pulse_id")
      = countWithId ((upsert_to_mongo [(doc, false)] store).1)
          (doc.getD "pulse_id") := by
  have hbeq : Json.beq (doc.getD "pulse_id") (doc.getD "pulse_id") = true :=
    Json.beq_refl _
  simp only [upsert_to_mongo, upsertBatch, upsertOne, List.isEmpty_cons,
    Bool.false_eq_true, if_false, h, if_true]
  rw [countWithId_replace_one _ _ _ hbeq,
    if_pos (replace_one_any store _ doc hbeq)]

/-- Witness for claim C1: a store holding an unrelated document, loaded twice
with the same document of id 1. -/
theorem claim_C1_witness :
    countWithId
        ((upsert_to_mongo [(Json.obj [("pulse_id", Json.num 1)], false)]
          ((upsert_to_mongo [(Json.obj [("pulse_id", Json.num 1)], false)]
            [Json.obj [("pulse_id", Json.num 7)]]).1)).1)
        ((Json.obj [("pulse_id", Json.num 1)]).getD "pulse_id")
      = countWithId
          ((upsert_to_mongo [(Json.obj [("pulse_id", Json.num 1)], false)]
            [Json.obj [("pulse_id", Json.num 7)]]).1)
          ((Json.obj [("pulse_id", Json.num 1)]).getD "pulse_id") :=
  claim_C1_idempotent_upsert [Json.obj [("pulse_id", Json.num 7)]]
    (Json.obj [("pulse_id", Json.num 1)]) (by decide)

/-- Claim C6: on an HTTP 429 response, `safe_get` sleeps the server-supplied
retry delay when the `Retry-After` header is present and numeric (a header of
`"2"` parses to a 2-second wait, a missing header parses to nothing, so the
current backoff is used), otherwise sleeps the current exponential backoff
value, and then always goes on to retry the request with the remaining
attempts (with doubled backoff); a 429 never produces an immediate failure. -/
theorem claim_C6_rate_limit_honors_retry_after (backoff : Nat)
    (ra : Option String) (rest : List Attempt) :
    safe_get_go backoff (Attempt.resp 429 ra :: rest)
        = ((safe_get_go (2 * backoff) rest).1,
            ((parseRetryAfter ra).getD backoff)
              :: (safe_get_go (2 * backoff) rest).2)
      ∧ parseRetryAfter (some "2") = some 2
      ∧ parseRetryAfter none = none := by
  refine ⟨?_, by decide, rfl⟩
  simp [safe_get_go]

/-- Claim C7: any HTTP 4xx status other than 429 (for example 404) makes
`safe_get` fail immediately with that status surfaced to the caller
(`resp.raise_for_status()`), with no sleeps and no further attempts,
whatever attempts would have followed. -/
theorem claim_C7_client_error_fails_immediately (backoff st : Nat)
    (ra : Option String) (rest : List Attempt)
    (h4 : 400 ≤ st) (h5 : st < 500) (hne : st ≠ 429) :
    safe_get_go backoff (Attempt.resp st ra :: rest)
      = (GetOutcome.raised st, []) := by
  have h200 : ¬ st = 200 := by omega
  have hsrv : ¬ 500 ≤ st := by omega
  have h6 : st < 600 := by omega
  simp [safe_get_go, h200, hne, hsrv, h4, h6]

/-- Witness for claim C7 at the concrete status 404. -/
theorem claim_C7_witness :
    safe_get_go 1 [Attempt.resp 404 none, Attempt.resp 200 none]
      = (GetOutcome.raised 404, []) :=
  claim_C7_client_error_fails_immediately 1 404 none [Attempt.resp 200 none]
    (by decide) (by decide) (by decide)

/-- Claim C2: when the items of the fetched page number `page` are as long as
the requested page size, the pagination loop yields them and continues with
the next page — unless the loop is on its configured last page (`fuel = 1`),
in which case it stops after yielding them; when the page has fewer items
than the page size, the loop stops after yielding them; and when the page
resolves to a falsy ("empty") result, the loop stops having yielded nothing. -/
theorem claim_C2_pagination (per_page page fuel : Nat) (pages : Nat → Json) :
    (∀ xs, pageItems (pages page) = .items xs → xs.length = per_page →
        fetchGo per_page pages page (fuel + 2)
          = (xs ++ (fetchGo per_page pages (page + 1) (fuel + 1)).1,
              (fetchGo per_page pages (page + 1) (fuel + 1)).2.1 + 1,
              (fetchGo per_page pages (page + 1) (fuel + 1)).2.2))
      ∧ (∀ xs, pageItems (pages page) = .items xs → xs.length = per_page →
          fetchGo per_page pages page 1 = (xs, 1, false))
      ∧ (∀ xs, pageItems (pages page) = .items xs → xs.length < per_page →
          fetchGo per_page pages page (fuel + 1) = (xs, 1, false))
      ∧ (pageItems (pages page) = .stop →
          fetchGo per_page pages page (fuel + 1) = ([], 1, false)) := by
  refine ⟨?_, ?_, ?_, ?_⟩
  · intro xs h hlen
    have hnl : ¬ xs.length < per_page := by omega
    simp [fetchGo, h, hnl]
  · intro xs h hlen
    have hnl : ¬ xs.length < per_page := by omega
    simp [fetchGo, h, hnl]
  · intro xs h hlen
    simp [fetchGo, h, hlen]
  · intro h
    simp [fetchGo, h]

/-- Witness for claim C2 on a concrete two-page run: page 1 is full (2 items
at page size 2) so fetching continues to page 2. -/
theorem claim_C2_witness :
    fetchGo 2 wPages 1 100
      = ([Json.num 1, Json.num 2] ++ (fetchGo 2 wPages 2 99).1,
          (fetchGo 2 wPages 2 99).2.1 + 1,
          (fetchGo 2 wPages 2 99).2.2) :=
  (claim_C2_pagination 2 1 98 wPages).1 [Json.num 1, Json.num 2] rfl rfl

/-- Counterexample to claim C4 as stated: on a concrete non-empty batch the
loader's return value is `None` — it is not a record of
`{upserted, modified, failed}` outcome counts. -/
theorem claim_C4_counterexample :
    (upsert_to_mongo [(Json.obj [("pulse_id", Json.num 1)], false)] []).2.2
      = none := rfl

/-- Claim C4 as amended: for every batch the loader returns no outcome counts
(both Python `return` paths yield `None`); each failed write shows up only as
one logged error event, never in a value returned to the caller. -/
theorem claim_C4_loader_returns_no_counts (docs : List (Json × Bool))
    (store : List Json) :
    (upsert_to_mongo docs store).2.2 = none
      ∧ (upsertBatch docs store).2 = (docs.filter (fun p => p.2)).length := by
  constructor
  · by_cases h : docs.isEmpty = true <;> simp [upsert_to_mongo, h]
  · induction docs generalizing store with
    | nil => simp [upsertBatch]
    | cons p rest ih =>
        obtain ⟨d, f⟩ := p
        have he : (upsertOne store d f).2 = if f then 1 else 0 := by
          by_cases ht : truthy (d.getD "pulse_id") = true <;>
            cases f <;> simp [upsertOne, ht]
        cases f <;> simp [upsertBatch, he, List.filter_cons, ih, Nat.add_comm]

/-- Counterexample to claim C8 as stated: with a two-document batch whose
first write fails, the remaining document is attempted and one error is
logged, but no failure count is kept or reported — the function returns
`None`, so the "counted" part of the claim is false. -/
theorem claim_C8_counterexample :
    upsert_to_mongo
        [(Json.obj [("pulse_id", Json.num 1)], true),
          (Json.obj [("pulse_id", Json.num 2)], false)] []
      = ([Json.obj [("pulse_id", Json.num 2)]], 1, none) := rfl

/-- Claim C8 as amended: a write failure for a single document does not abort
the batch — the failure is logged (one error event) and every remaining
document in the same batch is still attempted, exactly as if the batch had
started at the next document; no failure count is returned to the caller. -/
theorem claim_C8_failure_does_not_abort_batch (d : Json)
    (rest : List (Json × Bool)) (store : List Json) :
    upsertBatch ((d, true) :: rest) store
      = ((upsertBatch rest store).1, 1 + (upsertBatch rest store).2) := by
  by_cases ht : truthy (d.getD "pulse_id") = true <;>
    simp [upsertBatch, upsertOne, ht]

/-- Counterexample to claim C5 as stated: when the store ping fails, `main`
logs and returns normally, so the process exit status is 0 — not the non-zero
outcome the claim requires. -/
theorem claim_C5_counterexample :
    (mainRun false 0 (fun _ => Json.null) 20 100 50 []).exitCode = 0 := rfl

/-- Claim C5 as amended: if the document store is unreachable at startup, the
run aborts before any fetch begins — zero HTTP page requests, zero documents
processed, the store untouched, and the diagnostic logged — but `main`
returns normally, so the run terminates with a zero (successful) exit
status rather than a non-zero one. -/
theorem claim_C5_ping_failure_aborts_before_fetch (now : Int)
    (pages : Nat → Json) (batchSize maxPages perPage : Nat)
    (store : List Json) :
    mainRun false now pages batchSize maxPages perPage store
      = { exitCode := 0, pagesRequested := 0, processed := 0,
          pingErrorLogged := true, store := store } := by
  simp [mainRun]

/-- Counterexample to claim C3 as stated: a raw record missing every nested
field (the empty mapping) does not make `transform_pulse` fail — it returns a
document, and that document passes the caller's validation, so the record is
not skipped either. -/
theorem claim_C3_counterexample :
    (transform_pulse 0 (Json.obj [])).map validate_document = some true := rfl

/-- Claim C3 as amended: `transform_pulse` never fails because of absent
fields — for every mapping raw record whose `pulse_info` entry, when truthy,
is itself a mapping, it returns a document (extracted fields left unset, no
InvalidRecord condition exists), and that document always passes the caller's
validation, so the caller never skips a transformed record.  (The only
failure modes are type errors: a non-mapping raw record or a truthy
non-mapping `pulse_info`, which abort the whole run.) -/
theorem claim_C3_transform_never_fails_on_absent_fields (now : Int)
    (fs : List (String × Json))
    (hpi : (∃ pfs, (Json.obj fs).getD "pulse_info" = Json.obj pfs)
            ∨ truthy ((Json.obj fs).getD "pulse_info") = false) :
    (transform_pulse now (Json.obj fs)).map validate_document = some true := by
  have hsome : ∃ d, transform_pulse now (Json.obj fs) = some d := by
    simp only [transform_pulse]
    by_cases hpt : truthy ((Json.obj fs).getD "pulse_info") = true
    · rcases hpi with ⟨pfs, hp⟩ | hfalse
      · rw [hp] at hpt
        simp [hp, hpt]
      · rw [hfalse] at hpt
        exact absurd hpt (by simp)
    · simp [hpt]
  obtain ⟨d, hd⟩ := hsome
  rw [hd]
  simp [(transform_pulse_props now _ d hd).2.2]

/-- Witness for the amended claim C3 on a record that has a name but no
metric/pulse sub-mapping at all. -/
theorem claim_C3_witness :
    (transform_pulse 0 (Json.obj [("name", Json.str "x")])).map
        validate_document = some true :=
  claim_C3_transform_never_fails_on_absent_fields 0 [("name", Json.str "x")]
    (Or.inr (by decide))

/-- Claim C9: every document the pipeline hands to the loader carries an
ingestion timestamp and a full copy of the raw record — `transform_pulse`
always stores the unmodified raw input under `"raw"` and the clock under
`"ingestion_timestamp"` (and such a document passes validation), and the
record loop of `main` only ever hands validated documents (carrying both
fields) to `upsert_to_mongo`, skipping any that lack either field. -/
theorem claim_C9_loader_inputs_carry_timestamp_and_raw :
    (∀ (now : Int) (raw d : Json), transform_pulse now raw = some d →
        d.getD "raw" = raw ∧ d.getD "ingestion_timestamp" = Json.num now
          ∧ validate_document d = true)
      ∧ (∀ (batchSize : Nat) (now : Int) (fc : Bool) (rs store : List Json)
          (d : Json),
          d ∈ (mainLoop batchSize now fc rs [] 0 [] store).2.2.1 →
          validate_document d = true) := by
  refine ⟨fun now raw d h => transform_pulse_props now raw d h, ?_⟩
  intro batchSize now fc rs store d hd
  exact mainLoop_loaded_validated batchSize now fc rs [] 0 [] store
    (by simp) (by simp) d hd

/-- Witness for claim C9 at a concrete transformed record. -/
theorem claim_C9_witness :
    sampleTransformed.getD "raw" = Json.obj []
      ∧ sampleTransformed.getD "ingestion_timestamp" = Json.num 0
      ∧ validate_document sampleTransformed = true :=
  claim_C9_loader_inputs_carry_timestamp_and_raw.1 0 (Json.obj [])
    sampleTransformed rfl

/-- Claim C10: for a mapping raw record, the transformed document's
`pulse_id` equals `pulse_info["id"]` whenever the record holds a truthy
`pulse_info` whose `id` is truthy; the top-level `id` becomes `pulse_id` only
when no truthy `pulse_info`-derived id exists; and when neither source yields
an id (`pulse_info`'s `id` is null/absent and the top-level `id` is not
truthy) the `pulse_id` field is absent or `None` (both read back as null). -/
theorem claim_C10_pulse_id_extraction (now : Int) (fs : List (String × Json))
    (d : Json) (h : transform_pulse now (Json.obj fs) = some d) :
    (truthy ((Json.obj fs).getD "pulse_info") = true →
        truthy (((Json.obj fs).getD "pulse_info").getD "id") = true →
        d.getD "pulse_id" = ((Json.obj fs).getD "pulse_info").getD "id")
      ∧ (truthy (((Json.obj fs).getD "pulse_info").getD "id") = false →
          truthy ((Json.obj fs).getD "id") = true →
          d.getD "pulse_id" = (Json.obj fs).getD "id")
      ∧ (((Json.obj fs).getD "pulse_info").getD "id" = Json.null →
          truthy ((Json.obj fs).getD "id") = false →
          d.getD "pulse_id" = Json.null) := by
  simp only [transform_pulse] at h
  split at h
  · exact absurd h (by simp)
  · rename_i t1 heq
    injection h with h'
    subst h'
    have hprops : t1.isObj = true
        ∧ t1.getD "pulse_id" = ((Json.obj fs).getD "pulse_info").getD "id" := by
      by_cases hpi : truthy ((Json.obj fs).getD "pulse_info") = true
      · simp only [hpi, if_true] at heq
        split at heq
        · rename_i pfs hpfs
          injection heq with h1
          subst h1
          constructor
          · simp [getD_set, hasKey_set, isObj_set, isObj_obj]
          · simp [getD_set, hasKey_set, isObj_set, isObj_obj, hpfs]
        · exact absurd heq (by simp)
      · simp only [hpi, if_false] at heq
        injection heq with h1
        subst h1
        have hnull : ((Json.obj fs).getD "pulse_info").getD "id" = Json.null :=
          getD_of_falsy _ _ (by simpa using hpi)
        constructor
        · rfl
        · rw [hnull]
          simp [Json.getD, lookupField]
    obtain ⟨ho, hpid⟩ := hprops
    refine ⟨?_, ?_, ?_⟩
    · intro hpi hid
      by_cases h1 : truthy ((Json.obj fs).getD "id") = true <;>
        by_cases h2 : ((Json.obj fs).getD "indicator_count").isNull = true <;>
          simp [h1, h2, getD_set, isObj_set, ho, hpid, pyOr, hid]
    · intro hid h1
      by_cases h2 : ((Json.obj fs).getD "indicator_count").isNull = true <;>
        simp [h1, h2, getD_set, isObj_set, ho, hpid, pyOr, hid]
    · intro hid h1
      by_cases h2 : ((Json.obj fs).getD "indicator_count").isNull = true <;>
        simp [h1, h2, getD_set, isObj_set, ho, hpid, pyOr, hid]

/-- Witness for claim C10: with `pulse_info.id = 5` and a top-level
`id = 9`, the extracted `pulse_id` is 5. -/
theorem claim_C10_witness : docW10.getD "pulse_id" = Json.num 5 :=
  (claim_C10_pulse_id_extraction 0 rawWFields docW10 rfl).1 rfl rfl

end Etl
